import Mathlib

/-!
Verification of the multiCamController device command/synchronization engine.

Shallow embedding of `src/multicam_controller.py` (MultiCamController),
`src/multicam_app.py` (MultiCamApp) and `src/s3_controller.py` (S3Controller).

Python JSON-like values become the inductive `PyVal`; machine sockets become
an explicit stream of delivery events (`RecvEv`); the wall clock, connect
failures and collaborator behaviour are supplied as explicit parameters so
that every definition is an executable Lean function.  Bytes on the wire are
modelled as lists of naturals; the ASCII payloads the protocol uses decode
through `bdecode`.
-/

/-- Model of the values produced by Python's `json.loads` together with the
Python scalars (`True`, `False`, `None`) the controller code returns. -/
inductive PyVal where
  | str (s : String)
  | num (q : ℚ)
  | bool (b : Bool)
  | null
  | list (l : List PyVal)
  | obj (kvs : List (String × PyVal))

/-! Model of Python's `==` on the values above (used by `in` on lists). -/

mutual

def pyValBEq : PyVal → PyVal → Bool
  | .str a, .str b => a == b
  | .num a, .num b => decide (a = b)
  | .bool a, .bool b => a == b
  | .null, .null => true
  | .list a, .list b => pyValListBEq a b
  | .obj a, .obj b => pyValKvsBEq a b
  | _, _ => false

def pyValListBEq : List PyVal → List PyVal → Bool
  | [], [] => true
  | a :: as, b :: bs => pyValBEq a b && pyValListBEq as bs
  | _, _ => false

def pyValKvsBEq : List (String × PyVal) → List (String × PyVal) → Bool
  | [], [] => true
  | a :: as, b :: bs => a.1 == b.1 && pyValBEq a.2 b.2 && pyValKvsBEq as bs
  | _, _ => false

end

/-! Decidable equality for `PyVal` (a nested inductive, so written out by
hand); lets closed evaluations of the model be checked by `decide`. -/

mutual

def pyValDecEq : (a b : PyVal) → Decidable (a = b)
  | .str a, .str b =>
    match String.decEq a b with
    | isTrue h => isTrue (by rw [h])
    | isFalse h => isFalse (fun he => h (PyVal.str.inj he))
  | .num a, .num b =>
    match decEq a b with
    | isTrue h => isTrue (by rw [h])
    | isFalse h => isFalse (fun he => h (PyVal.num.inj he))
  | .bool a, .bool b =>
    match decEq a b with
    | isTrue h => isTrue (by rw [h])
    | isFalse h => isFalse (fun he => h (PyVal.bool.inj he))
  | .null, .null => isTrue rfl
  | .list a, .list b =>
    match pyValListDecEq a b with
    | isTrue h => isTrue (by rw [h])
    | isFalse h => isFalse (fun he => h (PyVal.list.inj he))
  | .obj a, .obj b =>
    match pyValKvsDecEq a b with
    | isTrue h => isTrue (by rw [h])
    | isFalse h => isFalse (fun he => h (PyVal.obj.inj he))
  | .str _, .num _ => isFalse (fun h => PyVal.noConfusion h)
  | .str _, .bool _ => isFalse (fun h => PyVal.noConfusion h)
  | .str _, .null => isFalse (fun h => PyVal.noConfusion h)
  | .str _, .list _ => isFalse (fun h => PyVal.noConfusion h)
  | .str _, .obj _ => isFalse (fun h => PyVal.noConfusion h)
  | .num _, .str _ => isFalse (fun h => PyVal.noConfusion h)
  | .num _, .bool _ => isFalse (fun h => PyVal.noConfusion h)
  | .num _, .null => isFalse (fun h => PyVal.noConfusion h)
  | .num _, .list _ => isFalse (fun h => PyVal.noConfusion h)
  | .num _, .obj _ => isFalse (fun h => PyVal.noConfusion h)
  | .bool _, .str _ => isFalse (fun h => PyVal.noConfusion h)
  | .bool _, .num _ => isFalse (fun h => PyVal.noConfusion h)
  | .bool _, .null => isFalse (fun h => PyVal.noConfusion h)
  | .bool _, .list _ => isFalse (fun h => PyVal.noConfusion h)
  | .bool _, .obj _ => isFalse (fun h => PyVal.noConfusion h)
  | .null, .str _ => isFalse (fun h => PyVal.noConfusion h)
  | .null, .num _ => isFalse (fun h => PyVal.noConfusion h)
  | .null, .bool _ => isFalse (fun h => PyVal.noConfusion h)
  | .null, .list _ => isFalse (fun h => PyVal.noConfusion h)
  | .null, .obj _ => isFalse (fun h => PyVal.noConfusion h)
  | .list _, .str _ => isFalse (fun h => PyVal.noConfusion h)
  | .list _, .num _ => isFalse (fun h => PyVal.noConfusion h)
  | .list _, .bool _ => isFalse (fun h => PyVal.noConfusion h)
  | .list _, .null => isFalse (fun h => PyVal.noConfusion h)
  | .list _, .obj _ => isFalse (fun h => PyVal.noConfusion h)
  | .obj _, .str _ => isFalse (fun h => PyVal.noConfusion h)
  | .obj _, .num _ => isFalse (fun h => PyVal.noConfusion h)
  | .obj _, .bool _ => isFalse (fun h => PyVal.noConfusion h)
  | .obj _, .null => isFalse (fun h => PyVal.noConfusion h)
  | .obj _, .list _ => isFalse (fun h => PyVal.noConfusion h)

def pyValListDecEq : (a b : List PyVal) → Decidable (a = b)
  | [], [] => isTrue rfl
  | [], _ :: _ => isFalse (fun h => List.noConfusion h)
  | _ :: _, [] => isFalse (fun h => List.noConfusion h)
  | x :: xs, y :: ys =>
    match pyValDecEq x y, pyValListDecEq xs ys with
    | isTrue h1, isTrue h2 => isTrue (by rw [h1, h2])
    | isFalse h1, _ => isFalse (fun h => h1 (List.cons.inj h).1)
    | _, isFalse h2 => isFalse (fun h => h2 (List.cons.inj h).2)

def pyValKvsDecEq : (a b : List (String × PyVal)) → Decidable (a = b)
  | [], [] => isTrue rfl
  | [], _ :: _ => isFalse (fun h => List.noConfusion h)
  | _ :: _, [] => isFalse (fun h => List.noConfusion h)
  | (k1, v1) :: xs, (k2, v2) :: ys =>
    match String.decEq k1 k2, pyValDecEq v1 v2, pyValKvsDecEq xs ys with
    | isTrue h1, isTrue h2, isTrue h3 => isTrue (by rw [h1, h2, h3])
    | isFalse h1, _, _ =>
      isFalse (fun h => h1 (congrArg Prod.fst (List.cons.inj h).1))
    | _, isFalse h2, _ =>
      isFalse (fun h => h2 (congrArg Prod.snd (List.cons.inj h).1))
    | _, _, isFalse h3 => isFalse (fun h => h3 (List.cons.inj h).2)

end

instance : DecidableEq PyVal := pyValDecEq

/-- Python truthiness of a `PyVal` (used by `or`-defaulting, `if file_id:`,
`if response_data:` and the `fileId` check in `send_command`). -/
def pyTruthy : PyVal → Bool
  | .str s => decide (s ≠ "")
  | .num q => decide (q ≠ 0)
  | .bool b => b
  | .null => false
  | .list l => !l.isEmpty
  | .obj kvs => !kvs.isEmpty

/-- Python dict lookup on a decoded JSON object.  `json.loads` keeps the last
value of a duplicated key, so lookup takes the last matching binding. -/
def dictGet (kvs : List (String × PyVal)) (k : String) : Option PyVal :=
  (kvs.reverse.find? (fun p => p.1 = k)).map (fun p => p.2)

/-- Does the character list `needle` occur at the start of `hay`? -/
def startsWithL : List Char → List Char → Bool
  | [], _ => true
  | _ :: _, [] => false
  | a :: as, b :: bs => a = b && startsWithL as bs

/-- Does the character list `needle` occur anywhere inside `hay`?
Models Python's substring containment for `key in some_string`. -/
def containsL (needle : List Char) : List Char → Bool
  | [] => needle.isEmpty
  | c :: rest => startsWithL needle (c :: rest) || containsL needle rest

/-- Python's `key in value` check; raises `TypeError` on non-container values. -/
def pyContains (v : PyVal) (k : String) : Except String Bool :=
  match v with
  | .obj kvs => .ok ((dictGet kvs k).isSome)
  | .list l => .ok (l.any (fun x => pyValBEq x (.str k)))
  | .str s => .ok (containsL k.data s.data)
  | _ => .error "TypeError"

/-- Python's `value[key]` subscript; raises `KeyError` when the key is absent
from a dict and `TypeError` on non-dict values. -/
def pySub (v : PyVal) (k : String) : Except String PyVal :=
  match v with
  | .obj kvs =>
    match dictGet kvs k with
    | some x => .ok x
    | none => .error "KeyError"
  | _ => .error "TypeError"

/-- Python `str()` formatting, exact on the string values that actually flow
through the protocol (device file names); other shapes get a fixed rendering. -/
def pyFormat : PyVal → String
  | .str s => s
  | .num q => toString q
  | .bool true => "True"
  | .bool false => "False"
  | .null => "None"
  | .list _ => "<list>"
  | .obj _ => "<dict>"

/-! ### A model of `json.loads`

A concrete recursive-descent reader for the JSON subset exchanged on the
wire: strings without escapes, integers, objects, arrays, `true`, `false`,
`null`.  It fails on a proper prefix of a document and on trailing garbage,
exactly the behaviour `send_command`'s keep-reading loop relies on. -/

/-- Skip JSON whitespace. -/
def skipWs : List Char → List Char
  | c :: rest =>
    if c = ' ' ∨ c = '\n' ∨ c = '\t' ∨ c = '\r' then skipWs rest else c :: rest
  | [] => []

/-- Read the body of a string literal up to the closing quote. -/
def parseStringAux (acc : List Char) : List Char → Option (String × List Char)
  | [] => none
  | c :: rest =>
    if c = '"' then some (String.mk acc.reverse, rest) else parseStringAux (c :: acc) rest

/-- Read a run of decimal digits into an accumulator. -/
def parseDigits (acc : Nat) : List Char → Nat × List Char
  | c :: rest =>
    if c.isDigit then parseDigits (acc * 10 + (c.toNat - 48)) rest else (acc, c :: rest)
  | [] => (acc, [])

mutual

/-- Parse one JSON value, fuel-bounded. -/
def parseVal : Nat → List Char → Option (PyVal × List Char)
  | 0, _ => none
  | Nat.succ f, cs =>
    match skipWs cs with
    | '"' :: rest => (parseStringAux [] rest).map (fun p => (.str p.1, p.2))
    | '{' :: rest => parseMembers f rest []
    | '[' :: rest => parseElems f rest []
    | 't' :: 'r' :: 'u' :: 'e' :: rest => some (.bool true, rest)
    | 'f' :: 'a' :: 'l' :: 's' :: 'e' :: rest => some (.bool false, rest)
    | 'n' :: 'u' :: 'l' :: 'l' :: rest => some (.null, rest)
    | '-' :: c :: rest =>
      if c.isDigit then
        let p := parseDigits (c.toNat - 48) rest
        some (.num (-(p.1 : ℚ)), p.2)
      else none
    | c :: rest =>
      if c.isDigit then
        let p := parseDigits (c.toNat - 48) rest
        some (.num (p.1 : ℚ), p.2)
      else none
    | [] => none

/-- Parse the members of a JSON object after the opening brace. -/
def parseMembers : Nat → List Char → List (String × PyVal) →
    Option (PyVal × List Char)
  | 0, _, _ => none
  | Nat.succ f, cs, acc =>
    match skipWs cs with
    | '}' :: rest => if acc.isEmpty then some (.obj [], rest) else none
    | '"' :: rest =>
      match parseStringAux [] rest with
      | none => none
      | some (k, r1) =>
        match skipWs r1 with
        | ':' :: r2 =>
          match parseVal f r2 with
          | none => none
          | some (v, r3) =>
            match skipWs r3 with
            | ',' :: r4 => parseMembers f r4 ((k, v) :: acc)
            | '}' :: r4 => some (.obj ((k, v) :: acc).reverse, r4)
            | _ => none
        | _ => none
    | _ => none

/-- Parse the elements of a JSON array after the opening bracket. -/
def parseElems : Nat → List Char → List PyVal → Option (PyVal × List Char)
  | 0, _, _ => none
  | Nat.succ f, cs, acc =>
    match skipWs cs with
    | ']' :: rest => if acc.isEmpty then some (.list [], rest) else none
    | cs1 =>
      match parseVal f cs1 with
      | none => none
      | some (v, r1) =>
        match skipWs r1 with
        | ',' :: r2 => parseElems f r2 (v :: acc)
        | ']' :: r2 => some (.list (v :: acc).reverse, r2)
        | _ => none

end

/-- Model of Python's `json.loads`: the whole input must be consumed. -/
def jsonLoads (s : String) : Option PyVal :=
  match parseVal (s.length + 2) s.data with
  | some (v, rest) => if skipWs rest = [] then some v else none
  | none => none

/-! ### Socket and clock model

A TCP reply stream is a list of delivery events: either a segment of bytes
handed to some `recv` call, or a `socket.timeout` raised by it.  Once the
events are exhausted the peer has closed the connection and every further
`recv` returns the empty byte string, exactly as Python sockets do. -/

/-- Bytes on the wire, as numeric byte values. -/
abbrev Bytes := List Nat

/-- One delivery event observed by a blocking `recv`. -/
inductive RecvEv where
  | data (b : Bytes)
  | timeout
deriving DecidableEq, Repr

/-- Model of `sock.recv n`: returns at most `n` bytes from the head delivery,
the empty byte string when the connection is closed, and raises
`socket.timeout` on a timeout event. -/
def recv (n : Nat) : List RecvEv → Except String (Bytes × List RecvEv)
  | [] => .ok ([], [])
  | .timeout :: _ => .error "socket.timeout"
  | .data b :: rest =>
    if b.length ≤ n then .ok (b, rest)
    else .ok (b.take n, .data (b.drop n) :: rest)

/-- Decode received bytes as text (`bytes.decode`), for the ASCII payloads
the protocol carries. -/
def bdecode (b : Bytes) : String := String.mk (b.map Char.ofNat)

/-- Encode text as wire bytes. -/
def strBytes (s : String) : Bytes := s.data.map Char.toNat

/-- Fuel that dominates the number of loop iterations any of the source's
receive loops can perform on an event list (each iteration consumes at least
one byte or one whole event). -/
def evSize : RecvEv → Nat
  | .data b => b.length + 1
  | .timeout => 1

def evMeasure (evs : List RecvEv) : Nat := evs.foldl (fun a e => a + evSize e) 1

/-- Environment of one `send_command` call: this thread's `time.time()`
reading, whether `sock.connect` raises, and the reply stream. -/
structure NetEnv where
  now : ℚ
  connectError : Option String
  events : List RecvEv

/-- Python `timestamp or time.time()` (line 76 of multicam_controller.py):
a falsy timestamp — absent or numerically zero — is replaced by the clock. -/
def pyOrNum (timestamp : Option ℚ) (now : ℚ) : ℚ :=
  match timestamp with
  | none => now
  | some q => if q = 0 then now else q

/-- The command envelope `send_command` builds and serializes (lines 74-84):
`command`, `timestamp` (falsy values replaced by `time.time()`), `deviceId`,
and `fileId` only when `file_id` is truthy (non-empty). -/
def commandMessage (command : String) (timestamp : Option ℚ) (now : ℚ)
    (file_id : Option String) : List (String × PyVal) :=
  let base := [("command", PyVal.str command),
               ("timestamp", PyVal.num (pyOrNum timestamp now)),
               ("deviceId", PyVal.str "controller")]
  match file_id with
  | some fid => if fid = "" then base else base ++ [("fileId", PyVal.str fid)]
  | none => base

/-- Outcome of one `send_command` call: `fail cause` models the `except`
branch (Python prints the cause and returns `False`); `val v` models a normal
return of the Python value `v`. -/
inductive SendResult where
  | fail (cause : String)
  | val (v : PyVal)
deriving DecidableEq

/-- Python's `isinstance(result, str)` on a `SendResult`. -/
def SendResult.isPyStr : SendResult → Bool
  | .val (.str _) => true
  | _ => false

/-! ### File Transfer Reader (`_handle_file_download`, lines 149-212) -/

/-- `struct.unpack of four big-endian bytes into an unsigned 32-bit size. -/
def be32 : Bytes → Nat
  | [b0, b1, b2, b3] => ((b0 * 256 + b1) * 256 + b2) * 256 + b3
  | _ => 0

/-- The header read loop (lines 164-169): keep reading until `header_size`
bytes are held; an empty read (closed connection) breaks out early; a timeout
raises (third component `true`). -/
def headerLoop : Nat → Nat → Bytes → List RecvEv → Bytes × List RecvEv × Bool
  | 0, _, acc, evs => (acc, evs, false)
  | Nat.succ f, hsize, acc, evs =>
    if acc.length < hsize then
      match recv (hsize - acc.length) evs with
      | .error _ => (acc, evs, true)
      | .ok ([], rest) => (acc, rest, false)
      | .ok (c, rest) => headerLoop f hsize (acc ++ c) rest
    else (acc, evs, false)

/-- The content download loop (lines 192-203): read `min 8192 remaining`-byte
chunks until `file_size` bytes are written; an empty read (closed connection)
breaks out early, leaving the file short; a timeout raises (second component
`true`).  Returns the bytes written to the local file. -/
def downloadLoop : Nat → ℤ → Bytes → List RecvEv → Bytes × Bool
  | 0, _, w, _ => (w, false)
  | Nat.succ f, fsize, w, evs =>
    if (w.length : ℤ) < fsize then
      let csize : ℤ := min 8192 (fsize - (w.length : ℤ))
      match recv csize.toNat evs with
      | .error _ => (w, true)
      | .ok ([], _) => (w, false)
      | .ok (c, rest) => downloadLoop f fsize (w ++ c) rest
    else (w, false)

/-- The File Transfer Reader `_handle_file_download` (lines 149-212).
Returns the Python return value together with the bytes written to the local
file.  Every raising path is caught by the function's own `except`, which
returns `False`; note that the source returns the local path (line 207) as
soon as the download loop finishes, even when the connection closed before
`file_size` bytes arrived. -/
def handleFileDownload (events : List RecvEv) (device_ip : String) :
    PyVal × Bytes :=
  match recv 4 events with
  | .error _ => (.bool false, [])
  | .ok (hsd, evs1) =>
    if hsd.length ≠ 4 then (.bool false, [])
    else
      let header_size := be32 hsd
      match headerLoop (evMeasure evs1) header_size [] evs1 with
      | (_, _, true) => (.bool false, [])
      | (hdata, evs2, false) =>
        match jsonLoads (bdecode hdata) with
        | none => (.bool false, [])
        | some hinfo =>
          match pySub hinfo "fileName" with
          | .error _ => (.bool false, [])
          | .ok fn =>
            match pySub hinfo "fileSize" with
            | .error _ => (.bool false, [])
            | .ok fsv =>
              match fsv with
              | .num fsize =>
                -- the JSON reader model only produces integral numbers, so
                -- the declared size is run as its integer part; a
                -- non-numeric `fileSize` raises at the comparison below and
                -- is caught (returns `False`)
                let file_name := pyFormat fn
                let device_name :=
                  String.mk (device_ip.data.map (fun c => if c = '.' then '_' else c))
                let local_path :=
                  "~/Downloads/multiCam/" ++ device_name ++ "_" ++ file_name
                match downloadLoop (evMeasure evs2) fsize.num [] evs2 with
                | (w, true) => (.bool false, w)
                | (w, false) => (.str local_path, w)
              | _ => (.bool false, [])

/-! ### Command Channel (`send_command`, lines 70-147) -/

/-- The LIST_FILES receive loop (lines 110-124): keep appending 8 KiB reads
until the accumulated bytes decode and parse as one complete JSON document;
a timeout or a closed connection breaks out with whatever was accumulated. -/
def listFilesLoop : Nat → Bytes → List RecvEv → Bytes
  | 0, acc, _ => acc
  | Nat.succ f, acc, evs =>
    match recv 8192 evs with
    | .error _ => acc
    | .ok ([], _) => acc
    | .ok (c, rest) =>
      let acc1 := acc ++ c
      match jsonLoads (bdecode acc1) with
      | some _ => acc1
      | none => listFilesLoop f acc1 rest

/-- The Command Channel `send_command` (lines 70-147).  Builds the envelope
`commandMessage command timestamp env.now file_id`, connects, sends, and
reads the reply: GET_VIDEO delegates to the File Transfer Reader, LIST_FILES
uses the keep-reading loop, every other command performs one `recv 4096`.
A STOP_RECORDING reply whose `fileId` field is truthy is surfaced as that
identifier alone.  Every raising path — connect error, timeout outside the
LIST_FILES loop, undecodable reply — is caught by the outer `except`, which
prints the cause and returns `False`, modelled as `.fail cause`. -/
def send_command (env : NetEnv) (device_ip : String) (device_port : Nat)
    (command : String) (timestamp : Option ℚ) (file_id : Option String) :
    SendResult :=
  -- lines 74-84: the envelope, serialized and written to the socket after a
  -- successful connect; the reply handling below does not reread it.
  let _message := commandMessage command timestamp env.now file_id
  match env.connectError with
  | some e => .fail e
  | none =>
    if command = "GET_VIDEO" then
      .val (handleFileDownload env.events device_ip).1
    else
      let rd : Except String Bytes :=
        if command = "LIST_FILES" then
          .ok (listFilesLoop (evMeasure env.events) [] env.events)
        else (recv 4096 env.events).map Prod.fst
      match rd with
      | .error e => .fail e
      | .ok rdata =>
        if rdata.isEmpty then .val (.bool true)
        else
          match jsonLoads (bdecode rdata) with
          | none => .fail "json.JSONDecodeError"
          | some rj =>
            if command = "STOP_RECORDING" then
              match pyContains rj "fileId" with
              | .error e => .fail e
              | .ok false => .val rj
              | .ok true =>
                match pySub rj "fileId" with
                | .error e => .fail e
                | .ok fv => if pyTruthy fv then .val fv else .val rj
            else .val rj

/-! ### Broadcast Coordinator (`send_command_to_all`, lines 214-262) -/

/-- One registry entry of `discovered_devices` (name stays the map key). -/
structure Device where
  ip : String
  port : Nat
deriving DecidableEq, Repr

/-- The shared timestamp computed once before dispatch (lines 220-228):
`time.time() + sync_delay` for a START_RECORDING broadcast with no explicit
timestamp, otherwise `timestamp or time.time()`. -/
def sync_timestamp (command : String) (timestamp : Option ℚ)
    (sync_delay now : ℚ) : ℚ :=
  if command = "START_RECORDING" ∧ timestamp = none then now + sync_delay
  else pyOrNum timestamp now

/-- The Broadcast Coordinator `send_command_to_all` (lines 214-262).  With an
empty registry it prints a warning and returns `None` (modelled `none`).
Otherwise one thread per device calls `send_command` with the single shared
timestamp and stores its result under the device name; the names of a Python
dict are unique, so the joined result map is the list of per-device results
in registry order.  For STOP_RECORDING the returned map is filtered down to
the results that are Python strings (file identifiers). -/
def send_command_to_all (envs : String → NetEnv)
    (devices : List (String × Device)) (command : String)
    (timestamp : Option ℚ) (sync_delay now : ℚ) :
    Option (List (String × SendResult)) :=
  if devices.isEmpty then none
  else
    let st := sync_timestamp command timestamp sync_delay now
    let results := devices.map
      (fun nd => (nd.1, send_command (envs nd.1) nd.2.ip nd.2.port command (some st) none))
    if command = "STOP_RECORDING" then
      some (results.filter (fun r => r.2.isPyStr))
    else some results

/-- The envelopes the broadcast transmits: each device's `send_command` call
builds `commandMessage` with the shared `sync_timestamp` and its own thread's
clock for the falsy-timestamp fallback. -/
def broadcastEnvelopes (envs : String → NetEnv)
    (devices : List (String × Device)) (command : String)
    (timestamp : Option ℚ) (sync_delay now : ℚ) :
    List (List (String × PyVal)) :=
  devices.map (fun nd =>
    commandMessage command (some (sync_timestamp command timestamp sync_delay now))
      (envs nd.1).now none)

/-! ### Upload collaborator (`s3_controller.py`, S3Controller)

The local file system is the list of existing paths; whether a given
`put_object` or `os.remove` succeeds is supplied by oracles, and the
wall-clock session folder of `generate_session_folder` is supplied as a
string.  Uploading never mutates the file system; deletion does. -/

structure S3World where
  clientOk : Bool
  uploadOk : String → Bool
  removeOk : String → Bool
  sessionFolder : String

/-- `upload_file` (lines 94-145): `False` without a client or for a missing
file, otherwise the outcome of `put_object` (any raise is caught). -/
def upload_file (w : S3World) (fs : List String) (local_path : String) : Bool :=
  w.clientOk && fs.contains local_path && w.uploadOk local_path

/-- Result dict of `upload_batch`; `session_folder` is `none` when the key is
absent (the empty-input early return omits it). -/
structure BatchResult where
  success : Bool
  uploaded_files : List String
  failed_files : List String
  session_folder : Option String
deriving DecidableEq, Repr

/-- The per-file loop of `upload_batch` (lines 167-181), accumulating
uploaded and failed paths in order. -/
def upload_batch_go (w : S3World) (fs : List String) :
    List String → List String → List String → List String × List String
  | [], up, fl => (up, fl)
  | p :: rest, up, fl =>
    if ¬ fs.contains p then upload_batch_go w fs rest up (fl ++ [p])
    else if upload_file w fs p then upload_batch_go w fs rest (up ++ [p]) fl
    else upload_batch_go w fs rest up (fl ++ [p])

/-- `upload_batch` (lines 147-195): empty input short-circuits to success
with no `session_folder` key; otherwise every path is tried and `success`
means no path failed. -/
def upload_batch (w : S3World) (fs : List String) (file_paths : List String)
    (custom_folder : Option String) : BatchResult :=
  if file_paths.isEmpty then
    { success := true, uploaded_files := [], failed_files := [], session_folder := none }
  else
    let folder := custom_folder.getD w.sessionFolder
    let step := upload_batch_go w fs file_paths [] []
    { success := step.2.isEmpty, uploaded_files := step.1, failed_files := step.2,
      session_folder := some folder }

/-- Result dict of `delete_local_files`. -/
structure CleanupResult where
  success : Bool
  deleted_files : List String
  failed_deletions : List String
deriving DecidableEq, Repr

/-- The per-file loop of `delete_local_files` (lines 210-221): an existing
path is removed (or recorded as a failed deletion when `os.remove` raises);
an already-missing path is neither deleted nor failed. -/
def delete_local_files_go (removeOk : String → Bool) :
    List String → List String → List String → List String →
    CleanupResult × List String
  | [], deleted, failed, fs =>
    ({ success := failed.isEmpty, deleted_files := deleted, failed_deletions := failed }, fs)
  | p :: rest, deleted, failed, fs =>
    if fs.contains p then
      if removeOk p then
        delete_local_files_go removeOk rest (deleted ++ [p]) failed
          (fs.filter (fun q => ¬ (q = p)))
      else delete_local_files_go removeOk rest deleted (failed ++ [p]) fs
    else delete_local_files_go removeOk rest deleted failed fs

/-- `delete_local_files` (lines 197-234): returns the result dict and the
file system after the deletions. -/
def delete_local_files (removeOk : String → Bool) (file_paths fs : List String) :
    CleanupResult × List String :=
  delete_local_files_go removeOk file_paths [] [] fs

/-- Result dict of `upload_and_cleanup`; the success branch carries
`deleted_count` and no `failed_count`, the failure branch the reverse. -/
structure UCResult where
  upload_success : Bool
  cleanup_success : Bool
  session_folder : Option String
  total_files : Nat
  uploaded_count : Nat
  deleted_count : Option Nat
  failed_count : Option Nat
deriving DecidableEq, Repr

/-- `upload_and_cleanup` (lines 236-271): upload the batch; only when every
file uploaded does it delete — and then only the successfully uploaded
paths.  On upload failure nothing is deleted and the file system is returned
untouched.  (The success branch subscripts `upload_result['session_folder']`,
which raises `KeyError` when the key is absent — only possible for an empty
batch — after the deletions have run; modelled by the `.error` outcome.) -/
def upload_and_cleanup (w : S3World) (fs : List String)
    (file_paths : List String) (custom_folder : Option String) :
    Except String UCResult × List String :=
  let ur := upload_batch w fs file_paths custom_folder
  if ur.success then
    let cr := delete_local_files w.removeOk ur.uploaded_files fs
    match ur.session_folder with
    | none => (.error "KeyError", cr.2)
    | some f =>
      (.ok { upload_success := true, cleanup_success := cr.1.success,
             session_folder := some f, total_files := file_paths.length,
             uploaded_count := ur.uploaded_files.length,
             deleted_count := some cr.1.deleted_files.length,
             failed_count := none }, cr.2)
  else
    (.ok { upload_success := false, cleanup_success := false,
           session_folder := ur.session_folder, total_files := file_paths.length,
           uploaded_count := ur.uploaded_files.length,
           deleted_count := none,
           failed_count := some ur.failed_files.length }, fs)

/-! ### Session Orchestrator (`multicam_app.py`, MultiCamApp) -/

/-- The app state the recording handlers read and write: the controller's
device registry and the single `recording_in_progress` flag. -/
structure AppState where
  devices : List (String × Device)
  recording_in_progress : Bool
deriving DecidableEq, Repr

/-- The message `start_recording` returns (lines 111-135). -/
inductive StartMsg where
  | noDevices
  | alreadyRecording
  | started (deviceCount : Nat)
  | startFailed
deriving DecidableEq, Repr

/-- `MultiCamApp.start_recording` (lines 111-135).  Returns the message, the
new state, and the device names a broadcast dispatched to (empty when the
call was rejected before any network activity).  The device-registry check
runs before the in-progress check; only past both does the flag flip and the
START_RECORDING broadcast go out with the fixed 3-second sync delay. -/
def start_recording (envs : String → NetEnv) (st : AppState) (now : ℚ) :
    StartMsg × AppState × List String :=
  if st.devices.isEmpty then (.noDevices, st, [])
  else if st.recording_in_progress then (.alreadyRecording, st, [])
  else
    let st1 : AppState := { st with recording_in_progress := true }
    let result := send_command_to_all envs st.devices "START_RECORDING" none 3 now
    let calls := st.devices.map (fun nd => nd.1)
    match result with
    | some rs =>
      if rs.isEmpty then (.startFailed, { st1 with recording_in_progress := false }, calls)
      else (.started st.devices.length, st1, calls)
    | none => (.startFailed, { st1 with recording_in_progress := false }, calls)

/-- `download_all_files` (lines 334-355): one GET_VIDEO command per returned
file identifier whose device is still registered; truthy results (the local
paths the File Transfer Reader returns) are collected. -/
def download_all_files (dlEnvs : String → NetEnv)
    (devices : List (String × Device)) (file_ids : List (String × SendResult)) :
    List String :=
  file_ids.foldl
    (fun acc p =>
      match devices.find? (fun nd => nd.1 = p.1) with
      | none => acc
      | some nd =>
        match p.2 with
        | .val (.str fid) =>
          match send_command (dlEnvs p.1) nd.2.ip nd.2.port "GET_VIDEO" none (some fid) with
          | .val (.str path) => if path = "" then acc else acc ++ [path]
          | _ => acc
        | _ => acc)
    []

/-- The message `stop_recording` returns (lines 137-183), one constructor
per user-visible outcome tier. -/
inductive StopMsg where
  | noRecording
  | complete (uploaded : Nat) (folder : String)
  | completePartialCleanup (uploaded : Nat) (folder : String)
  | uploadFailed (downloaded failedCount : Nat)
  | downloadFailed (deviceCount fileCount : Nat)
  | noFiles (deviceCount : Nat)
  | appError (e : String)
deriving DecidableEq, Repr

/-- `MultiCamApp.stop_recording` (lines 137-183).  Returns the message, the
new state, the remaining local files, and the device names contacted (STOP
broadcast plus download attempts; empty when the call was rejected).  The
in-progress flag is the only gate; past it the STOP_RECORDING broadcast runs,
the flag clears, the returned file identifiers are downloaded, and
`upload_and_cleanup` decides between the full / partial / upload-failure
outcome tiers. -/
def stop_recording (stopEnvs dlEnvs : String → NetEnv) (w : S3World)
    (fs : List String) (st : AppState) (now : ℚ) :
    StopMsg × AppState × List String × List String :=
  if ¬ st.recording_in_progress then (.noRecording, st, fs, [])
  else
    let device_count := st.devices.length
    let file_ids := send_command_to_all stopEnvs st.devices "STOP_RECORDING" none 3 now
    let st1 : AppState := { st with recording_in_progress := false }
    let stopCalls := st.devices.map (fun nd => nd.1)
    match file_ids with
    | none => (.noFiles device_count, st1, fs, stopCalls)
    | some fids =>
      if fids.isEmpty then (.noFiles device_count, st1, fs, stopCalls)
      else
        let downloaded := download_all_files dlEnvs st.devices fids
        let dlCalls := fids.foldl
          (fun acc p =>
            if (st.devices.find? (fun nd => nd.1 = p.1)).isSome then acc ++ [p.1] else acc)
          []
        let calls := stopCalls ++ dlCalls
        if downloaded.isEmpty then
          (.downloadFailed device_count fids.length, st1, fs, calls)
        else
          match upload_and_cleanup w fs downloaded none with
          | (.error e, fs1) => (.appError e, st1, fs1, calls)
          | (.ok r, fs1) =>
            if r.upload_success then
              if r.cleanup_success then
                (.complete r.uploaded_count (r.session_folder.getD "None"), st1, fs1, calls)
              else
                (.completePartialCleanup r.uploaded_count (r.session_folder.getD "None"),
                 st1, fs1, calls)
            else
              (.uploadFailed downloaded.length (r.failed_count.getD 0), st1, fs1, calls)

/-! ### Helper lemmas -/

lemma pyOrNum_some_of_ne (q now : ℚ) (h : q ≠ 0) : pyOrNum (some q) now = q := by
  simp [pyOrNum, h]

lemma dictGet_commandMessage_timestamp (command : String) (timestamp : Option ℚ)
    (now : ℚ) (file_id : Option String) :
    dictGet (commandMessage command timestamp now file_id) "timestamp" =
      some (.num (pyOrNum timestamp now)) := by
  rcases file_id with _ | fid
  · simp [commandMessage, dictGet]
  · by_cases h : fid = "" <;> simp [commandMessage, dictGet, h]

lemma one_le_evSize (e : RecvEv) : 1 ≤ evSize e := by
  cases e <;> simp [evSize]

lemma evMeasure_go (evs : List RecvEv) (a : Nat) :
    evs.foldl (fun x e => x + evSize e) a = a + (evs.map evSize).sum := by
  induction evs generalizing a with
  | nil => simp
  | cons e t ih => simp only [List.foldl_cons, ih, List.map_cons, List.sum_cons]; omega

lemma length_lt_evMeasure (evs : List RecvEv) : evs.length < evMeasure evs := by
  have hsum : evs.length ≤ (evs.map evSize).sum := by
    induction evs with
    | nil => simp
    | cons e t ih =>
      have := one_le_evSize e
      simp only [List.length_cons, List.map_cons, List.sum_cons]
      omega
  unfold evMeasure
  rw [evMeasure_go]
  omega

/-- The LIST_FILES keep-reading loop consumes every delivered chunk as long
as no strict chunk-prefix of the reply already parses as complete JSON. -/
lemma listFilesLoop_consumes :
    ∀ (chunks : List Bytes) (fuel : Nat) (acc : Bytes),
      chunks.length < fuel →
      (∀ c ∈ chunks, c ≠ [] ∧ c.length ≤ 8192) →
      (∀ k, 0 < k → k < chunks.length →
        jsonLoads (bdecode (acc ++ (chunks.take k).flatten)) = none) →
      listFilesLoop fuel acc (chunks.map RecvEv.data) = acc ++ chunks.flatten := by
  intro chunks
  induction chunks with
  | nil =>
    intro fuel acc hfuel _ _
    cases fuel with
    | zero => exact (Nat.not_lt_zero _ hfuel).elim
    | succ f => simp [listFilesLoop, recv]
  | cons c cs ih =>
    intro fuel acc hfuel hc hpref
    cases fuel with
    | zero => exact (Nat.not_lt_zero _ hfuel).elim
    | succ f =>
      obtain ⟨hcne, hlen⟩ := hc c (by simp)
      obtain ⟨b, bs, rfl⟩ : ∃ b bs, c = b :: bs := by
        cases c with
        | nil => exact absurd rfl hcne
        | cons b bs => exact ⟨b, bs, rfl⟩
      have hflen : cs.length < f := by
        simp only [List.length_cons] at hfuel
        omega
      have hrecv : recv 8192 (RecvEv.data (b :: bs) :: cs.map RecvEv.data) =
          .ok (b :: bs, cs.map RecvEv.data) := by
        simp only [recv]
        rw [if_pos hlen]
      simp only [List.map_cons, listFilesLoop, hrecv]
      cases cs with
      | nil =>
        cases hres : jsonLoads (bdecode (acc ++ b :: bs)) with
        | some v => simp [hres]
        | none =>
          have h0 := ih f (acc ++ b :: bs) (by simpa using hflen)
            (by intro x hx; cases hx) (by intro k h1 h2; simp at h2)
          simpa using h0
      | cons d ds =>
        have h1 : jsonLoads (bdecode (acc ++ b :: bs)) = none := by
          have := hpref 1 (by omega) (by simp)
          simpa using this
        rw [h1]
        have hccs : ∀ x ∈ d :: ds, x ≠ [] ∧ x.length ≤ 8192 := by
          intro x hx
          exact hc x (List.mem_cons_of_mem _ hx)
        have hprefcs : ∀ k, 0 < k → k < (d :: ds).length →
            jsonLoads (bdecode ((acc ++ b :: bs) ++ ((d :: ds).take k).flatten)) = none := by
          intro k hk1 hk2
          have := hpref (k + 1) (by omega) (by simp only [List.length_cons] at hk2 ⊢; omega)
          simpa [List.take_succ_cons, List.append_assoc] using this
        have h0 := ih f (acc ++ b :: bs) hflen hccs hprefcs
        simpa [List.append_assoc] using h0

/-! ### The claims -/

/-- C10: with an empty device registry, `send_command_to_all` performs no
dispatch and returns Python `None` (no per-device mapping at all), for every
command kind, timestamp and clock. -/
theorem C10_empty_registry_returns_none :
    ∀ (envs : String → NetEnv) (command : String) (timestamp : Option ℚ)
      (sync_delay now : ℚ),
      send_command_to_all envs [] command timestamp sync_delay now = none := by
  intro envs command timestamp sync_delay now
  rfl

/-- C9: a supplied timestamp equal to 0 (the epoch, a falsy value) is
silently replaced by the current clock in the transmitted envelope, and an
empty-string file identifier is omitted from the envelope entirely — the
envelope equals the one built with no file identifier at all. -/
theorem C9_falsy_timestamp_and_file_id :
    (∀ (command : String) (now : ℚ) (file_id : Option String),
       dictGet (commandMessage command (some 0) now file_id) "timestamp" =
         some (.num now)) ∧
    (∀ (command : String) (timestamp : Option ℚ) (now : ℚ),
       commandMessage command timestamp now (some "") =
         commandMessage command timestamp now none) := by
  constructor
  · intro command now file_id
    rw [dictGet_commandMessage_timestamp]
    simp [pyOrNum]
  · intro command timestamp now
    simp [commandMessage]

/-- A GET_VIDEO reply declaring a 39-byte metadata block for `a.mov` with
`fileSize` 1000. -/
def headerA : String := "\x7b\"fileName\": \"a.mov\", \"fileSize\": 1000\x7d"

/-- A transfer stream that closes after only 500 of the declared 1000
content bytes. -/
def streamA : List RecvEv :=
  [.data ([0, 0, 0, (strBytes headerA).length] ++ strBytes headerA ++
    List.replicate 500 65)]

set_option maxRecDepth 100000 in
/-- C2: the File Transfer Reader violates the claim.  The header declares
`fileSize` 1000, the connection closes after 500 content bytes, and
`_handle_file_download` nevertheless returns the local storage location
(printing "File downloaded successfully") with the 500-byte partial file on
disk, instead of failing: the `if not chunk: break` at line 196 falls
through to the unconditional `return local_path` at line 207. -/
theorem C2_truncated_download_returns_path :
    pySub ((jsonLoads headerA).getD .null) "fileSize" = .ok (.num 1000) ∧
    handleFileDownload streamA "10.0.0.7" =
      (.str "~/Downloads/multiCam/10_0_0_7_a.mov", List.replicate 500 65) := by
  exact ⟨rfl, rfl⟩

/-- A network in which every connect attempt raises. -/
def e0 : String → NetEnv := fun _ => ⟨1, some "ConnectionRefusedError", []⟩

def dev1 : Device := ⟨"10.0.0.1", 8080⟩

/-- C3 counterexample: a STOP_RECORDING broadcast over the one-device
registry whose device errors (connection refused) returns an empty mapping —
the errored device is omitted, not present with a failure outcome, because
line 253 filters the result map down to string file identifiers. -/
theorem C3_counterexample_stop_omits_failed_device :
    send_command (e0 "d1") dev1.ip dev1.port "STOP_RECORDING" (some 1) none =
      .fail "ConnectionRefusedError" ∧
    send_command_to_all e0 [("d1", dev1)] "STOP_RECORDING" none 3 1 = some [] := by
  exact ⟨rfl, rfl⟩

/-- C3 amended: for every command other than STOP_RECORDING the broadcast
returns one entry per targeted device — a device whose send errored is
present with its failure outcome, never omitted; for STOP_RECORDING the
returned mapping keeps only the devices whose result is a string file
identifier, so errored devices are omitted there. -/
theorem C3_amended_broadcast_completeness :
    ∀ (envs : String → NetEnv) (devices : List (String × Device))
      (command : String) (timestamp : Option ℚ) (sync_delay now : ℚ),
      devices ≠ [] →
      (command ≠ "STOP_RECORDING" →
        send_command_to_all envs devices command timestamp sync_delay now =
          some (devices.map (fun nd =>
            (nd.1, send_command (envs nd.1) nd.2.ip nd.2.port command
              (some (sync_timestamp command timestamp sync_delay now)) none)))) ∧
      (∀ rs, send_command_to_all envs devices "STOP_RECORDING" timestamp
          sync_delay now = some rs → ∀ p ∈ rs, p.2.isPyStr = true) := by
  intro envs devices command timestamp sync_delay now hne
  have hemp : devices.isEmpty = false := List.isEmpty_eq_false.mpr hne
  constructor
  · intro hcmd
    simp [send_command_to_all, hemp, hcmd]
  · intro rs hrs p hp
    simp only [send_command_to_all, hemp, Bool.false_eq_true, if_false,
      if_true, reduceIte, Option.some.injEq] at hrs
    subst hrs
    exact (List.mem_filter.mp hp).2

/-- C3 amended, witnessed on a concrete registry: a DEVICE_STATUS broadcast
over one unreachable device still returns an entry for it, carrying the
connect failure. -/
theorem C3_amended_broadcast_completeness_witness :
    ([("d1", dev1)] : List (String × Device)) ≠ [] ∧
    (("DEVICE_STATUS" : String) ≠ "STOP_RECORDING" →
      send_command_to_all e0 [("d1", dev1)] "DEVICE_STATUS" none 3 1 =
        some ([("d1", dev1)].map (fun nd =>
          (nd.1, send_command (e0 nd.1) nd.2.ip nd.2.port "DEVICE_STATUS"
            (some (sync_timestamp "DEVICE_STATUS" none 3 1)) none)))) ∧
    (∀ rs, send_command_to_all e0 [("d1", dev1)] "STOP_RECORDING" none 3 1 =
        some rs → ∀ p ∈ rs, p.2.isPyStr = true) := by
  refine ⟨by simp, ?_⟩
  exact C3_amended_broadcast_completeness e0 [("d1", dev1)] "DEVICE_STATUS"
    none 3 1 (by simp)

/-- C1: a START_RECORDING broadcast with no explicit instant over a
non-empty registry returns one result per device, transmits one envelope per
device, and every envelope carries the identical timestamp `now + sync_delay`
(computed once from the dispatch-time clock `now`, with `sync_delay`
defaulting to 3.0 at the call sites), independent of each device thread's
own clock. -/
theorem C1_synchronized_start_timestamp :
    ∀ (envs : String → NetEnv) (devices : List (String × Device))
      (sync_delay now : ℚ),
      devices ≠ [] → 0 < now → 0 ≤ sync_delay →
      (∃ rs, send_command_to_all envs devices "START_RECORDING" none sync_delay
          now = some rs ∧ rs.map Prod.fst = devices.map Prod.fst) ∧
      (broadcastEnvelopes envs devices "START_RECORDING" none sync_delay
          now).length = devices.length ∧
      (∀ m ∈ broadcastEnvelopes envs devices "START_RECORDING" none sync_delay
          now, dictGet m "timestamp" = some (.num (now + sync_delay))) := by
  intro envs devices sync_delay now hne hnow hsd
  have hemp : devices.isEmpty = false := List.isEmpty_eq_false.mpr hne
  have hst : sync_timestamp "START_RECORDING" none sync_delay now =
      now + sync_delay := by
    simp [sync_timestamp]
  have hstne : now + sync_delay ≠ 0 := by positivity
  refine ⟨⟨devices.map (fun nd =>
      (nd.1, send_command (envs nd.1) nd.2.ip nd.2.port "START_RECORDING"
        (some (sync_timestamp "START_RECORDING" none sync_delay now)) none)),
      ?_, ?_⟩, ?_, ?_⟩
  · simp [send_command_to_all, hemp]
  · simp [List.map_map, Function.comp]
  · simp [broadcastEnvelopes]
  · intro m hm
    simp only [broadcastEnvelopes, List.mem_map] at hm
    obtain ⟨nd, _, rfl⟩ := hm
    rw [hst, dictGet_commandMessage_timestamp, pyOrNum_some_of_ne _ _ hstne]

/-- C1, witnessed on a concrete two-device registry with distinct per-thread
clocks: both envelopes carry timestamp 103 = 100 + 3. -/
theorem C1_synchronized_start_timestamp_witness :
    ([("cam1", dev1), ("cam2", Device.mk "10.0.0.2" 8080)] :
        List (String × Device)) ≠ [] ∧
    (0 : ℚ) < 100 ∧ (0 : ℚ) ≤ 3 ∧
    ((∃ rs, send_command_to_all (fun n => ⟨if n = "cam1" then 100 else 101, none, []⟩)
        [("cam1", dev1), ("cam2", Device.mk "10.0.0.2" 8080)] "START_RECORDING"
        none 3 100 = some rs ∧
        rs.map Prod.fst =
          [("cam1", dev1), ("cam2", Device.mk "10.0.0.2" 8080)].map Prod.fst) ∧
     (broadcastEnvelopes (fun n => ⟨if n = "cam1" then 100 else 101, none, []⟩)
        [("cam1", dev1), ("cam2", Device.mk "10.0.0.2" 8080)] "START_RECORDING"
        none 3 100).length =
       [("cam1", dev1), ("cam2", Device.mk "10.0.0.2" 8080)].length ∧
     (∀ m ∈ broadcastEnvelopes (fun n => ⟨if n = "cam1" then 100 else 101, none, []⟩)
        [("cam1", dev1), ("cam2", Device.mk "10.0.0.2" 8080)] "START_RECORDING"
        none 3 100, dictGet m "timestamp" = some (.num (100 + 3)))) := by
  exact ⟨by simp, by norm_num, by norm_num,
    C1_synchronized_start_timestamp _ _ 3 100 (by simp) (by norm_num) (by norm_num)⟩

/-- A DEVICE_STATUS reply split into two deliveries: the full reply is valid
JSON but the first delivery alone is not. -/
def envDS : NetEnv :=
  ⟨5, none, [.data (strBytes "\x7b\"ok\""), .data (strBytes ": 1\x7d")]⟩

/-- C4 counterexample: a structured DEVICE_STATUS reply arriving in two
partial deliveries is lost, not reassembled — the single `recv 4096` at line
126 reads only the first delivery, whose bytes do not parse, so the channel
fails although the complete reply is valid JSON.  Only LIST_FILES gets the
keep-reading loop. -/
theorem C4_counterexample_split_status_reply_lost :
    jsonLoads (bdecode (strBytes "\x7b\"ok\"" ++ strBytes ": 1\x7d")) =
      some (.obj [("ok", .num 1)]) ∧
    send_command envDS "10.0.0.1" 8080 "DEVICE_STATUS" none none =
      .fail "json.JSONDecodeError" := by
  exact ⟨by decide, by decide⟩

/-- C4 amended: only LIST_FILES keeps reading across multiple partial
deliveries until the accumulated bytes parse as one complete JSON value,
stopping as soon as they do; every other command except GET_VIDEO performs a
single bounded read, so its result is determined by the first delivery
alone. -/
theorem C4_amended_only_list_files_reassembles :
    (∀ (now : ℚ) (ip : String) (port : Nat) (ts : Option ℚ) (fid : Option String)
       (chunks : List Bytes) (v : PyVal),
       chunks ≠ [] →
       (∀ c ∈ chunks, c ≠ [] ∧ c.length ≤ 8192) →
       (∀ k, 0 < k → k < chunks.length →
         jsonLoads (bdecode ((chunks.take k).flatten)) = none) →
       jsonLoads (bdecode chunks.flatten) = some v →
       send_command ⟨now, none, chunks.map RecvEv.data⟩ ip port "LIST_FILES"
         ts fid = .val v) ∧
    (∀ (now : ℚ) (ip : String) (port : Nat) (ts : Option ℚ) (fid : Option String)
       (command : String) (e : RecvEv) (rest : List RecvEv),
       command ≠ "GET_VIDEO" → command ≠ "LIST_FILES" →
       send_command ⟨now, none, e :: rest⟩ ip port command ts fid =
         send_command ⟨now, none, [e]⟩ ip port command ts fid) := by
  constructor
  · intro now ip port ts fid chunks v hne hc hpref hfull
    have hfuel : chunks.length < evMeasure (chunks.map RecvEv.data) := by
      have := length_lt_evMeasure (chunks.map RecvEv.data)
      simpa using this
    have hloop := listFilesLoop_consumes chunks
      (evMeasure (chunks.map RecvEv.data)) [] hfuel hc
      (by intro k h1 h2; simpa using hpref k h1 h2)
    simp only [List.nil_append] at hloop
    have hflat : chunks.flatten ≠ [] := by
      cases chunks with
      | nil => exact absurd rfl hne
      | cons c cs =>
        have hc1 := (hc c (by simp)).1
        simp only [List.flatten_cons]
        intro h
        exact hc1 (List.append_eq_nil.mp h).1
    simp [send_command, hloop, hfull, List.isEmpty_eq_false.mpr hflat]
  · intro now ip port ts fid command e rest h1 h2
    cases e with
    | timeout => simp [send_command, recv, h1, h2]
    | data b =>
      by_cases hb : b.length ≤ 4096 <;>
        simp [send_command, recv, h1, h2, hb, Except.map]

/-- A LIST_FILES reply split into two deliveries. -/
def chunksLF : List Bytes := [strBytes "\x7b\"files\"", strBytes ": []\x7d"]

/-- C4 amended, witnessed: the two-delivery LIST_FILES reply above is
reassembled into the parsed file list, and a DEVICE_STATUS send reads only
the first delivery of its stream. -/
theorem C4_amended_only_list_files_reassembles_witness :
    (chunksLF ≠ [] ∧ (∀ c ∈ chunksLF, c ≠ [] ∧ c.length ≤ 8192) ∧
     (∀ k, 0 < k → k < chunksLF.length →
       jsonLoads (bdecode ((chunksLF.take k).flatten)) = none) ∧
     jsonLoads (bdecode chunksLF.flatten) = some (.obj [("files", .list [])])) ∧
    send_command ⟨5, none, chunksLF.map RecvEv.data⟩ "10.0.0.1" 8080
      "LIST_FILES" none none = .val (.obj [("files", .list [])]) ∧
    (("DEVICE_STATUS" : String) ≠ "GET_VIDEO" ∧
     ("DEVICE_STATUS" : String) ≠ "LIST_FILES") ∧
    send_command ⟨5, none, RecvEv.data (strBytes "\x7b\x7d") :: [RecvEv.timeout]⟩
      "10.0.0.1" 8080 "DEVICE_STATUS" none none =
      send_command ⟨5, none, [RecvEv.data (strBytes "\x7b\x7d")]⟩
        "10.0.0.1" 8080 "DEVICE_STATUS" none none := by
  have hpref : ∀ k, 0 < k → k < chunksLF.length →
      jsonLoads (bdecode ((chunksLF.take k).flatten)) = none := by
    intro k h1 h2
    have hk : k = 1 := by simp [chunksLF] at h2; omega
    subst hk
    decide
  refine ⟨⟨by decide, by decide, hpref, by decide⟩, ?_, ⟨by decide, by decide⟩, ?_⟩
  · exact C4_amended_only_list_files_reassembles.1 5 "10.0.0.1" 8080 none none
      chunksLF (.obj [("files", .list [])]) (by decide) (by decide) hpref (by decide)
  · exact C4_amended_only_list_files_reassembles.2 5 "10.0.0.1" 8080 none none
      "DEVICE_STATUS" (RecvEv.data (strBytes "\x7b\x7d")) [RecvEv.timeout]
      (by decide) (by decide)

/-- The LIST_FILES receive loop breaks out of reading as soon as a `recv`
raises `socket.timeout`, keeping whatever was accumulated. -/
lemma listFilesLoop_timeout_first (fuel : Nat) (acc : Bytes) (rest : List RecvEv)
    (h : 0 < fuel) : listFilesLoop fuel acc (RecvEv.timeout :: rest) = acc := by
  cases fuel with
  | zero => exact (Nat.not_lt_zero _ h).elim
  | succ f => simp [listFilesLoop, recv]

/-- C7 counterexample: a LIST_FILES send whose first read times out returns
the raw success marker `True`, not a failure outcome carrying the cause —
the receive loop catches `socket.timeout` and breaks (lines 123-124), the
accumulated reply is empty, so `if response_data:` is false and line 143
returns `True`.  So "on any ... timeout it returns a failure outcome" is
false for LIST_FILES. -/
theorem C7_counterexample_list_files_timeout_returns_true :
    send_command ⟨1, none, [RecvEv.timeout]⟩ "10.0.0.1" 8080 "LIST_FILES"
      none none = .val (.bool true) ∧
    ∀ e, send_command ⟨1, none, [RecvEv.timeout]⟩ "10.0.0.1" 8080 "LIST_FILES"
      none none ≠ .fail e := by
  have h : send_command ⟨1, none, [RecvEv.timeout]⟩ "10.0.0.1" 8080 "LIST_FILES"
      none none = .val (.bool true) := by decide
  exact ⟨h, fun e he => by rw [h] at he; exact SendResult.noConfusion he⟩

/-- C7 amended: the Command Channel never lets a fault escape its boundary —
`send_command` is a total function into `SendResult` — and it returns a
failure outcome carrying the cause on any connect error (for every command),
and on a read timeout or an undecodable reply for every command other than
GET_VIDEO and LIST_FILES; the one exception is the LIST_FILES receive loop,
which swallows a `socket.timeout`: with nothing accumulated the channel
returns the raw success marker `True` instead of a failure outcome. -/
theorem C7_amended_channel_error_boundary :
    (∀ (env : NetEnv) (ip : String) (port : Nat) (command : String)
       (ts : Option ℚ) (fid : Option String) (e : String),
       env.connectError = some e →
       send_command env ip port command ts fid = .fail e) ∧
    (∀ (now : ℚ) (ip : String) (port : Nat) (command : String) (ts : Option ℚ)
       (fid : Option String) (rest : List RecvEv),
       command ≠ "GET_VIDEO" → command ≠ "LIST_FILES" →
       send_command ⟨now, none, RecvEv.timeout :: rest⟩ ip port command ts fid =
         .fail "socket.timeout") ∧
    (∀ (now : ℚ) (ip : String) (port : Nat) (command : String) (ts : Option ℚ)
       (fid : Option String) (b : Bytes) (rest : List RecvEv),
       command ≠ "GET_VIDEO" → command ≠ "LIST_FILES" →
       b ≠ [] → b.length ≤ 4096 → jsonLoads (bdecode b) = none →
       send_command ⟨now, none, RecvEv.data b :: rest⟩ ip port command ts fid =
         .fail "json.JSONDecodeError") ∧
    (∀ (now : ℚ) (ip : String) (port : Nat) (ts : Option ℚ)
       (fid : Option String) (rest : List RecvEv),
       send_command ⟨now, none, RecvEv.timeout :: rest⟩ ip port "LIST_FILES"
         ts fid = .val (.bool true)) := by
  refine ⟨?_, ?_, ?_, ?_⟩
  · intro env ip port command ts fid e he
    simp [send_command, he]
  · intro now ip port command ts fid rest h1 h2
    simp [send_command, recv, h1, h2, Except.map]
  · intro now ip port command ts fid b rest h1 h2 hb hlen hparse
    simp [send_command, recv, h1, h2, hlen, hparse, hb, Except.map]
  · intro now ip port ts fid rest
    have h0 : 0 < evMeasure (RecvEv.timeout :: rest) :=
      Nat.lt_of_le_of_lt (Nat.zero_le _) (length_lt_evMeasure _)
    simp [send_command, listFilesLoop_timeout_first _ _ _ h0]

/-- C7 amended, witnessed: a refused connect, a timed-out DEVICE_STATUS
read and an unparseable DEVICE_STATUS reply each come back as a `.fail`
carrying the cause, while a timed-out LIST_FILES read comes back as the
raw `True` marker. -/
theorem C7_amended_channel_error_boundary_witness :
    ((⟨1, some "ConnectionRefusedError", []⟩ : NetEnv).connectError =
      some "ConnectionRefusedError") ∧
    send_command ⟨1, some "ConnectionRefusedError", []⟩ "10.0.0.1" 8080
      "START_RECORDING" none none = .fail "ConnectionRefusedError" ∧
    (("DEVICE_STATUS" : String) ≠ "GET_VIDEO" ∧
     ("DEVICE_STATUS" : String) ≠ "LIST_FILES") ∧
    send_command ⟨1, none, [RecvEv.timeout]⟩ "10.0.0.1" 8080 "DEVICE_STATUS"
      none none = .fail "socket.timeout" ∧
    (strBytes "garbage" ≠ [] ∧ (strBytes "garbage").length ≤ 4096 ∧
     jsonLoads (bdecode (strBytes "garbage")) = none) ∧
    send_command ⟨1, none, [RecvEv.data (strBytes "garbage")]⟩ "10.0.0.1" 8080
      "DEVICE_STATUS" none none = .fail "json.JSONDecodeError" ∧
    send_command ⟨1, none, [RecvEv.timeout]⟩ "10.0.0.1" 8080 "LIST_FILES"
      none none = .val (.bool true) := by
  refine ⟨by decide, ?_, ⟨by decide, by decide⟩, ?_,
    ⟨by decide, by decide, by decide⟩, ?_, ?_⟩
  · exact C7_amended_channel_error_boundary.1 ⟨1, some "ConnectionRefusedError", []⟩
      "10.0.0.1" 8080 "START_RECORDING" none none "ConnectionRefusedError" rfl
  · exact C7_amended_channel_error_boundary.2.1 1 "10.0.0.1" 8080 "DEVICE_STATUS"
      none none [] (by decide) (by decide)
  · exact C7_amended_channel_error_boundary.2.2.1 1 "10.0.0.1" 8080 "DEVICE_STATUS"
      none none (strBytes "garbage") [] (by decide) (by decide) (by decide)
      (by decide) (by decide)
  · exact C7_amended_channel_error_boundary.2.2.2 1 "10.0.0.1" 8080 none none []

/-- C8: for a STOP_RECORDING command whose reply parses to an object, a
truthy (non-empty) `fileId` field is surfaced alone as the device's result,
whatever the other fields say; when the `fileId` field is absent or falsy the
full structured reply is returned instead. -/
theorem C8_stop_recording_surfaces_file_id :
    ∀ (now : ℚ) (ip : String) (port : Nat) (ts : Option ℚ) (fid : Option String)
      (b : Bytes) (rest : List RecvEv) (fields : List (String × PyVal)),
      b ≠ [] → b.length ≤ 4096 →
      jsonLoads (bdecode b) = some (.obj fields) →
      (∀ v, dictGet fields "fileId" = some v → pyTruthy v = true →
        send_command ⟨now, none, RecvEv.data b :: rest⟩ ip port
          "STOP_RECORDING" ts fid = .val v) ∧
      ((∀ v, dictGet fields "fileId" = some v → pyTruthy v = false) →
        send_command ⟨now, none, RecvEv.data b :: rest⟩ ip port
          "STOP_RECORDING" ts fid = .val (.obj fields)) := by
  intro now ip port ts fid b rest fields hb hlen hparse
  constructor
  · intro v hv htr
    simp [send_command, recv, hlen, hparse, hb, Except.map,
      pyContains, pySub, hv, htr]
  · intro hfalsy
    cases hv : dictGet fields "fileId" with
    | none =>
      simp [send_command, recv, hlen, hparse, hb, Except.map,
        pyContains, hv]
    | some v =>
      simp [send_command, recv, hlen, hparse, hb, Except.map,
        pyContains, pySub, hv, hfalsy v hv]

/-- C8, witnessed: a reply carrying both a file identifier and an error
field still surfaces only the identifier. -/
theorem C8_stop_recording_surfaces_file_id_witness :
    (strBytes "\x7b\"fileId\": \"F1\", \"status\": \"err\"\x7d" ≠ [] ∧
     (strBytes "\x7b\"fileId\": \"F1\", \"status\": \"err\"\x7d").length ≤ 4096 ∧
     jsonLoads (bdecode (strBytes "\x7b\"fileId\": \"F1\", \"status\": \"err\"\x7d")) =
       some (.obj [("fileId", .str "F1"), ("status", .str "err")]) ∧
     dictGet [("fileId", .str "F1"), ("status", .str "err")] "fileId" =
       some (.str "F1") ∧
     pyTruthy (.str "F1") = true) ∧
    send_command
      ⟨9, none, [RecvEv.data (strBytes "\x7b\"fileId\": \"F1\", \"status\": \"err\"\x7d")]⟩
      "10.0.0.1" 8080 "STOP_RECORDING" none none = .val (.str "F1") := by
  refine ⟨⟨by decide, by decide, by decide, by decide, by decide⟩, ?_⟩
  exact (C8_stop_recording_surfaces_file_id 9 "10.0.0.1" 8080 none none
    (strBytes "\x7b\"fileId\": \"F1\", \"status\": \"err\"\x7d") []
    [("fileId", .str "F1"), ("status", .str "err")] (by decide) (by decide)
    (by decide)).1 (.str "F1") (by decide) (by decide)

/-- C5 counterexample: with an empty device registry and the in-progress
flag false, `start_recording` is rejected ("no devices available", zero
dispatches) although the flag is false — so the flag is not the single gate:
the registry check at line 114 runs first.  Dispatch happening is observed
as a non-empty list of contacted devices. -/
theorem C5_counterexample_start_not_gated_by_flag_alone :
    start_recording e0 ⟨[], false⟩ 1 = (.noDevices, ⟨[], false⟩, []) ∧
    ¬ (((start_recording e0 ⟨[], false⟩ 1).2.2 ≠ []) ↔
        (AppState.mk [] false).recording_in_progress = false) := by
  exact ⟨by decide, by decide⟩

/-- C5 amended: stop() while Idle and start() while Recording are rejected
with a wrong-state failure before any network activity (no device is
contacted and the state is unchanged); stop() is accepted exactly when the
in-progress flag is true, while start() dispatches exactly when the flag is
false AND the device registry is non-empty — the registry check precedes the
flag check. -/
theorem C5_amended_state_gating :
    ∀ (envs stopEnvs dlEnvs : String → NetEnv) (w : S3World) (fs : List String)
      (st : AppState) (now : ℚ),
      (st.recording_in_progress = false →
        stop_recording stopEnvs dlEnvs w fs st now = (.noRecording, st, fs, [])) ∧
      (st.recording_in_progress = true → st.devices ≠ [] →
        start_recording envs st now = (.alreadyRecording, st, [])) ∧
      ((stop_recording stopEnvs dlEnvs w fs st now).1 ≠ .noRecording ↔
        st.recording_in_progress = true) ∧
      ((start_recording envs st now).2.2 ≠ [] ↔
        (st.recording_in_progress = false ∧ st.devices ≠ [])) := by
  intro envs stopEnvs dlEnvs w fs st now
  refine ⟨?_, ?_, ?_, ?_⟩
  · intro hrec
    simp [stop_recording, hrec]
  · intro hrec hd
    simp [start_recording, List.isEmpty_eq_false.mpr hd, hrec]
  · cases hrec : st.recording_in_progress with
    | false => simp [stop_recording, hrec]
    | true =>
      simp only [hrec, iff_true]
      simp only [stop_recording, hrec, not_true_eq_false, if_false]
      split
      · simp
      · split
        · simp
        · split
          · simp
          · split
            · simp
            · split
              · split <;> simp
              · simp
  · rcases hd : st.devices with _ | ⟨p, ds⟩
    · simp [start_recording, hd]
    · cases hrec : st.recording_in_progress with
      | true => simp [start_recording, hd, hrec]
      | false =>
        unfold start_recording
        rw [hd]
        rw [if_neg (by simp)]
        rw [if_neg (by simp [hrec])]
        simp only [hrec]
        split <;> simp [hd]
        case _ rs _ => split <;> simp [hd]

/-- C5 amended, witnessed: stop() in Idle and start() in Recording over a
one-device registry are both rejected with no contacted device. -/
theorem C5_amended_state_gating_witness :
    ((AppState.mk [("d1", dev1)] false).recording_in_progress = false ∧
     (AppState.mk [("d1", dev1)] true).recording_in_progress = true ∧
     (AppState.mk [("d1", dev1)] true).devices ≠ []) ∧
    stop_recording e0 e0 ⟨true, fun _ => true, fun _ => true, "F/"⟩ ["x"]
      ⟨[("d1", dev1)], false⟩ 1 =
      (.noRecording, ⟨[("d1", dev1)], false⟩, ["x"], []) ∧
    start_recording e0 ⟨[("d1", dev1)], true⟩ 1 =
      (.alreadyRecording, ⟨[("d1", dev1)], true⟩, []) := by
  refine ⟨⟨rfl, rfl, by decide⟩, ?_, ?_⟩
  · exact (C5_amended_state_gating e0 e0 e0 ⟨true, fun _ => true, fun _ => true, "F/"⟩
      ["x"] ⟨[("d1", dev1)], false⟩ 1).1 rfl
  · exact (C5_amended_state_gating e0 e0 e0 ⟨true, fun _ => true, fun _ => true, "F/"⟩
      ["x"] ⟨[("d1", dev1)], true⟩ 1).2.1 rfl (by decide)

/-- Deletion never touches a file outside the path list it was given. -/
lemma delete_local_files_go_preserves (removeOk : String → Bool) :
    ∀ (paths deleted failed fs : List String) (p : String),
      p ∈ fs → p ∉ paths →
      p ∈ (delete_local_files_go removeOk paths deleted failed fs).2 := by
  intro paths
  induction paths with
  | nil =>
    intro deleted failed fs p hp _
    simpa [delete_local_files_go] using hp
  | cons q rest ih =>
    intro deleted failed fs p hp hnp
    have hpq : p ≠ q := fun h => hnp (by simp [h])
    have hnrest : p ∉ rest := fun h => hnp (by simp [h])
    simp only [delete_local_files_go]
    by_cases hq : fs.contains q
    · by_cases hr : removeOk q
      · simp only [hq, hr, if_true]
        exact ih _ _ _ p (by simp [List.mem_filter, hp, hpq]) hnrest
      · simp only [hq, hr, if_true, if_false, Bool.false_eq_true]
        exact ih _ _ _ p hp hnrest
    · simp only [hq, Bool.false_eq_true, if_false]
      exact ih _ _ _ p hp hnrest

/-- C6: the upload-and-cleanup step is atomic on upload failure — if any
file in a non-empty batch fails to upload, the result reports upload failure
(with the failed count) and the local file system is returned untouched;
local deletion runs only when every file uploaded, then only over the
successfully uploaded paths (every other local file survives), and a cleanup
failure is reported as upload success with cleanup failure — a tier distinct
from upload failure. -/
theorem C6_upload_cleanup_atomicity :
    ∀ (w : S3World) (fs file_paths : List String) (custom_folder : Option String),
      file_paths ≠ [] →
      ((upload_batch w fs file_paths custom_folder).success = false →
        upload_and_cleanup w fs file_paths custom_folder =
          (.ok { upload_success := false, cleanup_success := false,
                 session_folder :=
                   (upload_batch w fs file_paths custom_folder).session_folder,
                 total_files := file_paths.length,
                 uploaded_count :=
                   (upload_batch w fs file_paths custom_folder).uploaded_files.length,
                 deleted_count := none,
                 failed_count :=
                   some (upload_batch w fs file_paths custom_folder).failed_files.length },
           fs)) ∧
      ((upload_batch w fs file_paths custom_folder).success = true →
        ∃ r, (upload_and_cleanup w fs file_paths custom_folder).1 = .ok r ∧
          r.upload_success = true ∧
          r.cleanup_success = (delete_local_files w.removeOk
            (upload_batch w fs file_paths custom_folder).uploaded_files fs).1.success ∧
          (∀ p ∈ fs, p ∉ (upload_batch w fs file_paths custom_folder).uploaded_files →
            p ∈ (upload_and_cleanup w fs file_paths custom_folder).2)) := by
  intro w fs file_paths custom_folder hne
  have hsf : (upload_batch w fs file_paths custom_folder).session_folder =
      some (custom_folder.getD w.sessionFolder) := by
    simp [upload_batch, List.isEmpty_eq_false.mpr hne]
  constructor
  · intro hfail
    simp [upload_and_cleanup, hfail]
  · intro hsucc
    refine ⟨{ upload_success := true,
              cleanup_success := (delete_local_files w.removeOk
                (upload_batch w fs file_paths custom_folder).uploaded_files fs).1.success,
              session_folder := some (custom_folder.getD w.sessionFolder),
              total_files := file_paths.length,
              uploaded_count :=
                (upload_batch w fs file_paths custom_folder).uploaded_files.length,
              deleted_count := some (delete_local_files w.removeOk
                (upload_batch w fs file_paths custom_folder).uploaded_files fs).1.deleted_files.length,
              failed_count := none }, ?_, rfl, rfl, ?_⟩
    · simp only [upload_and_cleanup, hsucc, if_true, hsf]
    · intro p hp hnp
      simp only [upload_and_cleanup, hsucc, if_true, hsf, delete_local_files]
      exact delete_local_files_go_preserves w.removeOk _ [] [] fs p hp hnp

/-- C6, witnessed: with one of two files failing to upload, nothing is
deleted and the outcome is the upload-failure tier. -/
theorem C6_upload_cleanup_atomicity_witness :
    (["a", "b"] : List String) ≠ [] ∧
    (upload_batch ⟨true, fun p => decide (p ≠ "b"), fun _ => true, "F/"⟩
      ["a", "b"] ["a", "b"] none).success = false ∧
    upload_and_cleanup ⟨true, fun p => decide (p ≠ "b"), fun _ => true, "F/"⟩
      ["a", "b"] ["a", "b"] none =
      (.ok { upload_success := false, cleanup_success := false,
             session_folder :=
               (upload_batch ⟨true, fun p => decide (p ≠ "b"), fun _ => true, "F/"⟩
                 ["a", "b"] ["a", "b"] none).session_folder,
             total_files := (["a", "b"] : List String).length,
             uploaded_count :=
               (upload_batch ⟨true, fun p => decide (p ≠ "b"), fun _ => true, "F/"⟩
                 ["a", "b"] ["a", "b"] none).uploaded_files.length,
             deleted_count := none,
             failed_count :=
               some (upload_batch ⟨true, fun p => decide (p ≠ "b"), fun _ => true, "F/"⟩
                 ["a", "b"] ["a", "b"] none).failed_files.length },
       ["a", "b"]) := by
  refine ⟨by decide, by decide, ?_⟩
  exact (C6_upload_cleanup_atomicity
    ⟨true, fun p => decide (p ≠ "b"), fun _ => true, "F/"⟩ ["a", "b"] ["a", "b"]
    none (by decide)).1 (by decide)
